import Mathlib

/-
Verification development for the tabichan Python SDK.

The repository has two clients for the same backend: a synchronous HTTP
polling client (src/tabichan/client.py, embedded below from the source)
and an asynchronous WebSocket session client.  The WebSocket client module
itself is not present in the source tree (only its tests and a demo caller
are), so its state machine is modelled from the specification; every such
definition carries a doc comment starting with "Modelled from the spec:".
-/

/-- A JSON document, as produced by the Python json module: the wire format
of every frame exchanged with the backend. -/
inductive JValue where
  | jstr (s : String)
  | jnum (n : Int)
  | jbool (b : Bool)
  | jnull
  | jarr (items : List JValue)
  | jobj (fields : List (String × JValue))

/-- Association-list lookup on the fields of a JSON object, mirroring
Python dict lookup for the field names used by the clients. -/
def jLookup : List (String × JValue) → String → Option JValue
  | [], _ => none
  | (k, v) :: rest, key => if k = key then some v else jLookup rest key

/-- Field access on a JSON value: some value when it is an object holding
the key, none otherwise (Python dict.get). -/
def jGet (v : JValue) (key : String) : Option JValue :=
  match v with
  | .jobj fields => jLookup fields key
  | _ => none

/-- Modelled from the spec: the opaque transport resource owned by the
Connection Lifecycle Manager; the only observable used by the client is
whether the transport has been marked closed. -/
structure WsHandle where
  closed : Bool
deriving DecidableEq

/-- Modelled from the spec: the eventual outcome of a connection attempt,
used to model an in-flight attempt as a cooperative task that any caller
may await. -/
inductive ConnectOutcome where
  | success (h : WsHandle)
  | timeoutError
  | failure (msg : String)
deriving DecidableEq

/-- Modelled from the spec: the mutable state of the WebSocket session
client: identity, endpoint, transport handle, connected flag, Active
Question Marker, and the background task reference (the in-flight
connection attempt while one is pending). -/
structure WsClient where
  user_id : String
  api_key : String
  base_url : String
  ws : Option WsHandle
  is_connected : Bool
  current_question_id : Option String
  connection_task : Option ConnectOutcome

/-- Payload carried by an emitted event: no payload, a JSON value, or an
error object constructed from a JSON value. -/
inductive EventPayload where
  | unit
  | json (v : JValue)
  | errObj (v : JValue)

/-- An emitted event: the event name together with its payload. -/
structure Event where
  name : String
  payload : EventPayload

/-- The type discriminator of an inbound envelope, when the frame is an
object whose type field is a string. -/
def msgType (msg : JValue) : Option String :=
  match jGet msg "type" with
  | some (.jstr s) => some s
  | _ => none

/-- The data payload of an inbound envelope; Python message.get of the
data field, with absence rendered as null. -/
def msgData (msg : JValue) : JValue :=
  (jGet msg "data").getD .jnull

/-- The question identifier inside the data payload of a question
envelope, when present as a string. -/
def dataQuestionId (msg : JValue) : Option String :=
  match jGet (msgData msg) "question_id" with
  | some (.jstr s) => some s
  | _ => none

/-- Modelled from the spec: the Inbound Message Dispatcher action on one
decoded envelope.  By the type discriminator: a question envelope sets the
Active Question Marker to data.question_id and emits message then
question; a result envelope emits message then result; a complete
envelope clears the marker and emits message then complete with no
payload; an error envelope emits message then chat_error with an error
object constructed from data; anything else (malformed frames included)
emits unknown_message with the raw envelope. -/
def handle_message (st : WsClient) (msg : JValue) : WsClient × List Event :=
  match msgType msg with
  | some "question" =>
      ({ st with current_question_id := dataQuestionId msg },
       [⟨"message", .json msg⟩, ⟨"question", .json (msgData msg)⟩])
  | some "result" =>
      (st, [⟨"message", .json msg⟩, ⟨"result", .json (msgData msg)⟩])
  | some "complete" =>
      ({ st with current_question_id := none },
       [⟨"message", .json msg⟩, ⟨"complete", .unit⟩])
  | some "error" =>
      (st, [⟨"message", .json msg⟩, ⟨"chat_error", .errObj (msgData msg)⟩])
  | _ =>
      (st, [⟨"unknown_message", .json msg⟩])

/-- Modelled from the spec: the derived connection state string, a pure
function of handle presence, the closed mark, and the connected flag. -/
def get_connection_state (st : WsClient) : String :=
  match st.ws with
  | none => "disconnected"
  | some h => if h.closed then "closed" else if st.is_connected then "connected" else "connecting"

/-- Modelled from the spec: whether an Active Question Marker is set. -/
def has_active_question (st : WsClient) : Bool :=
  st.current_question_id.isSome

/-- Modelled from the spec: the error taxonomy raised synchronously by the
WebSocket session client to its caller. -/
inductive WsError where
  | configurationError (msg : String)
  | invalidStateError (msg : String)
  | notConnectedError
  | noActiveQuestionError
deriving DecidableEq

/-- The outbound response frame: type response, the active question id,
and the caller's answer. -/
def responseFrame (q answer : String) : JValue :=
  .jobj [("type", .jstr "response"), ("question_id", .jstr q), ("response", .jstr answer)]

/-- Modelled from the spec: sendResponse requires connected (else
NotConnectedError) and an active question (else NoActiveQuestionError);
on send it produces the response frame for the active question and clears
the Active Question Marker immediately, without waiting for any backend
acknowledgement. -/
def send_response (st : WsClient) (answer : String) : Except WsError (WsClient × JValue) :=
  if st.is_connected then
    match st.current_question_id with
    | none => .error .noActiveQuestionError
    | some q => .ok ({ st with current_question_id := none }, responseFrame q answer)
  else .error .notConnectedError

/-- The outbound chat-start frame: type chat_request together with the
query, history and preferences supplied by the caller. -/
def encode_chat_request (query : String) (history : List JValue)
    (preferences : List (String × JValue)) : JValue :=
  .jobj [("type", .jstr "chat_request"), ("query", .jstr query),
         ("history", .jarr history), ("preferences", .jobj preferences)]

/-- Modelled from the spec: startChat requires connected (else
NotConnectedError); it encodes and sends the chat-start command without
waiting for a reply. -/
def start_chat (st : WsClient) (query : String) (history : List JValue)
    (preferences : List (String × JValue)) : Except WsError JValue :=
  if st.is_connected then .ok (encode_chat_request query history preferences)
  else .error .notConnectedError

/-- Modelled from the spec: how the receiving side decodes a chat-start
wire frame back into its fields: it reads the type discriminator and, for
a chat_request envelope, extracts the query, history and preferences. -/
def decode_chat_request (frame : JValue) : Option (String × List JValue × List (String × JValue)) :=
  match jGet frame "type" with
  | some (.jstr "chat_request") =>
      match jGet frame "query", jGet frame "history", jGet frame "preferences" with
      | some (.jstr q), some (.jarr h), some (.jobj p) => some (q, h, p)
      | _, _, _ => none
  | _ => none

/-- A graceful-closure request issued to the transport: the close code and
the human-readable reason. -/
structure CloseCall where
  code : Nat
  reason : String
deriving DecidableEq

/-- Whether the client currently owns a transport handle that is not
already marked closed. -/
def hasOpenHandle (st : WsClient) : Bool :=
  match st.ws with
  | some h => !h.closed
  | none => false

/-- Modelled from the spec: disconnect is idempotent and never raises.
When a handle exists and is not already closed it requests graceful
closure with the normal-closure code 1000 and a fixed reason; otherwise
no close call is made.  Regardless of prior state it discards the handle,
clears the connected flag, clears the Active Question Marker and clears
the background task reference. -/
def disconnect (st : WsClient) : WsClient × Option CloseCall :=
  let closeReq : Option CloseCall :=
    if hasOpenHandle st then some ⟨1000, "Client disconnecting"⟩ else none
  ({ st with ws := none, is_connected := false,
             current_question_id := none, connection_task := none }, closeReq)

/-- Modelled from the spec: the value a caller observes from a concluded
connection attempt: success yields a normal return, a timeout raises the
connection-timeout failure, any other failure propagates its cause. -/
def outcomeResult : ConnectOutcome → Except String Unit
  | .success _ => .ok ()
  | .timeoutError => .error "Connection timeout"
  | .failure m => .error m

/-- Modelled from the spec: the moment a connection attempt concludes.
On success the handle is stored, the connected flag set, connected
emitted, and the in-flight marker cleared; on timeout or failure no
partial handle is retained, the in-flight marker is cleared, and failure
emits error with the cause.  Returns the new state, the result every
awaiter observes, and the emitted events. -/
def settleAttempt (st : WsClient) (attempt : ConnectOutcome) :
    WsClient × Except String Unit × List Event :=
  match attempt with
  | .success h =>
      ({ st with ws := some h, is_connected := true, connection_task := none },
       .ok (), [⟨"connected", .unit⟩])
  | .timeoutError =>
      ({ st with ws := none, connection_task := none }, .error "Connection timeout", [])
  | .failure m =>
      ({ st with ws := none, connection_task := none },
       .error m, [⟨"error", .errObj (.jstr m)⟩])

/-- Modelled from the spec: the first phase of connect under cooperative
scheduling.  If an in-flight attempt exists nothing is started (zero new
transport handshakes) and the caller will await the recorded attempt;
otherwise a new attempt begins (exactly one handshake is started) and is
recorded as the in-flight attempt before the caller suspends awaiting the
transport.  Returns the new state and the number of handshakes started. -/
def connectBegin (st : WsClient) (attempt : ConnectOutcome) : WsClient × Nat :=
  match st.connection_task with
  | some _ => (st, 0)
  | none => ({ st with connection_task := some attempt }, 1)

/-- Modelled from the spec: a complete connect call with no interleaved
caller: a pending attempt is awaited and its outcome returned with no new
handshake; otherwise one handshake runs to its conclusion.  Returns the
new state, the caller's observed result, the number of handshakes
started, and the emitted events. -/
def connect (st : WsClient) (attempt : ConnectOutcome) :
    WsClient × Except String Unit × Nat × List Event :=
  match st.connection_task with
  | some pending => (st, outcomeResult pending, 0, [])
  | none =>
      let st1 : WsClient := { st with connection_task := some attempt }
      let settled := settleAttempt st1 attempt
      (settled.1, settled.2.1, 1, settled.2.2)

/-- Modelled from the spec: two connect calls overlapping in time under
cooperative scheduling.  The first call begins an attempt and suspends;
the second call enters connect while that attempt is pending, so it
starts nothing and awaits the attempt recorded in the state; then the
attempt concludes and the first caller observes its result.  Returns the
final state, the first and second callers' results, and the total number
of handshakes started. -/
def overlappedConnect (st : WsClient) (attempt : ConnectOutcome) :
    WsClient × Except String Unit × Except String Unit × Nat :=
  let began1 := connectBegin st attempt
  let began2 := connectBegin began1.1 attempt
  let awaited2 : Except String Unit :=
    match began2.1.connection_task with
    | some pending => outcomeResult pending
    | none => .error "no pending attempt"
  let settled := settleAttempt began2.1 ((began2.1.connection_task).getD attempt)
  (settled.1, settled.2.1, awaited2, began1.2 + began2.2)

/-- A subscriber callback reference; callbacks are compared by identity
when removed, so the registry stores opaque identifiers. -/
abbrev HandlerId := Nat

/-- Modelled from the spec: the Event Subscription Table, a mapping from
event name to the ordered list of subscriber callbacks; entries are
created lazily and may become an empty list after removal. -/
abbrev EventTable := List (String × List HandlerId)

/-- The current subscriber list for an event, empty when the event has no
entry. -/
def subscribers (tbl : EventTable) (event : String) : List HandlerId :=
  match tbl with
  | [] => []
  | (e, hs) :: rest => if e = event then hs else subscribers rest event

/-- Modelled from the spec: on appends the handler to the event's
subscriber list, creating the list if absent, with no de-duplication. -/
def onReg (tbl : EventTable) (event : String) (h : HandlerId) : EventTable :=
  match tbl with
  | [] => [(event, [h])]
  | (e, hs) :: rest =>
      if e = event then (e, hs ++ [h]) :: rest else (e, hs) :: onReg rest event h

/-- Modelled from the spec: off with no handler argument clears all
subscribers for the event; a no-op when the event is unknown. -/
def offAllReg (tbl : EventTable) (event : String) : EventTable :=
  match tbl with
  | [] => []
  | (e, hs) :: rest =>
      if e = event then (e, []) :: rest else (e, hs) :: offAllReg rest event

/-- Modelled from the spec: off with a handler argument removes the first
matching entry for the event; a no-op when the event or handler is
unknown. -/
def offOneReg (tbl : EventTable) (event : String) (h : HandlerId) : EventTable :=
  match tbl with
  | [] => []
  | (e, hs) :: rest =>
      if e = event then (e, hs.erase h) :: rest else (e, hs) :: offOneReg rest event h

/-- A registration action performed by the application: subscribe, remove
one handler, or remove all handlers of an event. -/
inductive RegOp where
  | add (event : String) (h : HandlerId)
  | removeOne (event : String) (h : HandlerId)
  | removeAll (event : String)

/-- The table obtained by applying a sequence of registration actions. -/
def applyOps (tbl : EventTable) : List RegOp → EventTable
  | [] => tbl
  | .add e h :: rest => applyOps (onReg tbl e h) rest
  | .removeOne e h :: rest => applyOps (offOneReg tbl e h) rest
  | .removeAll e :: rest => applyOps (offAllReg tbl e) rest

/-- How a subscriber behaves when invoked: it returns normally or raises
an exception carrying a message. -/
inductive HandlerBehavior where
  | ok
  | raises (msg : String)

/-- Invoking one subscriber: an exception becomes an error value in the
exception monad. -/
def callHandler (env : HandlerId → HandlerBehavior) (h : HandlerId) : Except String Unit :=
  match env h with
  | .ok => .ok ()
  | .raises m => .error m

/-- Modelled from the spec: fan-out dispatch over a subscriber list.  Each
subscriber is invoked in order inside a per-handler catch: an exception is
caught and turned into a report line, and dispatch continues with the
remaining subscribers.  Returns, in the exception monad of emit's caller,
the invocation order and the reported lines. -/
def emitRun (env : HandlerId → HandlerBehavior) (event : String) :
    List HandlerId → Except String (List HandlerId × List String)
  | [] => .ok ([], [])
  | h :: rest => do
      let report : Option String :=
        match callHandler env h with
        | .ok _ => none
        | .error m => some ("Error in event handler for " ++ event ++ ": " ++ m)
      let tail ← emitRun env event rest
      match report with
      | some m => .ok (h :: tail.1, m :: tail.2)
      | none => .ok (h :: tail.1, tail.2)

/-- Modelled from the spec: emit dispatches to the subscribers currently
registered for the event. -/
def emit (tbl : EventTable) (env : HandlerId → HandlerBehavior) (event : String) :
    Except String (List HandlerId × List String) :=
  emitRun env event (subscribers tbl event)

/-- The report lines produced by one emit over a subscriber list: one line
per raising subscriber, in order. -/
def emitReports (env : HandlerId → HandlerBehavior) (event : String)
    (hs : List HandlerId) : List String :=
  hs.filterMap fun h =>
    match env h with
    | .raises m => some ("Error in event handler for " ++ event ++ ": " ++ m)
    | .ok => none

/-- One poll of the chat endpoint as observed by wait_for_chat: either the
decoded JSON body, carrying the status and (for completed polls) the
result payload, or a transport/request exception. -/
structure PollData where
  status : String
  result : JValue

/-- The outcome of one poll_chat call: decoded data or a raised
requests.RequestException. -/
inductive PollAnswer where
  | data (d : PollData)
  | exc (msg : String)

/-- How wait_for_chat ends: a normal return carrying the result payload,
or termination of the whole process via sys.exit with the given code. -/
inductive WaitOutcome where
  | returned (result : JValue)
  | exited (code : Nat)

/-- The observable behaviour of one wait_for_chat run: its outcome, how
many polls it made, and how many times it slept. -/
structure WaitStats where
  outcome : WaitOutcome
  polls : Nat
  sleeps : Nat

/-- The attempt ceiling of wait_for_chat, from src/tabichan/client.py. -/
def max_attempts : Nat := 30

/-- The polling loop of TabichanClient.wait_for_chat, from
src/tabichan/client.py.  The loop guard is mirrored by the fuel, which
equals max_attempts minus the attempts counter k at every call from
wait_for_chat; the attempts counter also counts the polls made, since it
is incremented exactly when a poll does not end the run.  A completed
poll returns its result payload; a failed or unexpected status and a
request exception terminate the process; a running status increments the
attempts counter and sleeps only when further attempts remain. -/
def waitAux (poll : Nat → PollAnswer) : Nat → Nat → Nat → WaitStats
  | k, 0, sleeps => ⟨.exited 1, k, sleeps⟩
  | k, fuel + 1, sleeps =>
      match poll k with
      | .exc _ => ⟨.exited 1, k + 1, sleeps⟩
      | .data d =>
          if d.status = "completed" then ⟨.returned d.result, k + 1, sleeps⟩
          else if d.status = "running" then
            if k + 1 < max_attempts then waitAux poll (k + 1) fuel (sleeps + 1)
            else waitAux poll (k + 1) fuel sleeps
          else ⟨.exited 1, k + 1, sleeps⟩

/-- TabichanClient.wait_for_chat, from src/tabichan/client.py, with the
sequence of poll outcomes supplied as an oracle indexed by attempt. -/
def wait_for_chat (poll : Nat → PollAnswer) : WaitStats :=
  waitAux poll 0 max_attempts 0

theorem subscribers_onReg (tbl : EventTable) (event : String) (h : HandlerId) :
    subscribers (onReg tbl event h) event = subscribers tbl event ++ [h] := by
  induction tbl with
  | nil => simp [onReg, subscribers]
  | cons p rest ih =>
      obtain ⟨e, hs⟩ := p
      by_cases he : e = event
      · simp [onReg, subscribers, he]
      · simp [onReg, subscribers, he, ih]

theorem subscribers_offAllReg (tbl : EventTable) (event : String) :
    subscribers (offAllReg tbl event) event = [] := by
  induction tbl with
  | nil => simp [offAllReg, subscribers]
  | cons p rest ih =>
      obtain ⟨e, hs⟩ := p
      by_cases he : e = event
      · simp [offAllReg, subscribers, he]
      · simp [offAllReg, subscribers, he, ih]

theorem emitRun_eq (env : HandlerId → HandlerBehavior) (event : String) :
    ∀ hs : List HandlerId, emitRun env event hs = .ok (hs, emitReports env event hs) := by
  intro hs
  induction hs with
  | nil => rfl
  | cons h rest ih =>
      simp only [emitRun, ih, emitReports, List.filterMap_cons]
      cases hb : env h <;> simp [callHandler, hb, emitReports] <;> rfl

/-- C4: disconnect never raises (it is a total function on states) and is
idempotent: from every prior state it leaves the handle discarded, the
connected flag false, the Active Question Marker cleared and the
background task reference cleared; it requests transport closure with the
normal-closure code 1000 and the fixed reason exactly when an open,
not-yet-closed handle exists; afterwards the derived connection state is
disconnected and no question is active, and a second disconnect changes
nothing and makes no close call. -/
theorem disconnect_contract :
    ∀ st : WsClient,
      (disconnect st).1.ws = none
      ∧ (disconnect st).1.is_connected = false
      ∧ (disconnect st).1.current_question_id = none
      ∧ (disconnect st).1.connection_task = none
      ∧ (disconnect st).2 =
          (if hasOpenHandle st then some ⟨1000, "Client disconnecting"⟩ else none)
      ∧ get_connection_state (disconnect st).1 = "disconnected"
      ∧ has_active_question (disconnect st).1 = false
      ∧ disconnect (disconnect st).1 = ((disconnect st).1, none) := by
  intro st
  refine ⟨rfl, rfl, rfl, rfl, rfl, rfl, rfl, ?_⟩
  simp [disconnect, hasOpenHandle]

/-- C5: emit invokes exactly the handlers currently registered for the
event, in registration order, each exactly once per emit call (the
invocation trace equals the subscriber list), after every sequence of
on/off registration actions; on appends to the registration order, a
handler registered twice appears twice, and off with no handler argument
removes all subscribers so a subsequent emit invokes none. -/
theorem emit_registry_contract :
    (∀ (ops : List RegOp) (env : HandlerId → HandlerBehavior) (e : String),
        emit (applyOps [] ops) env e =
          .ok (subscribers (applyOps [] ops) e,
               emitReports env e (subscribers (applyOps [] ops) e)))
    ∧ (∀ (tbl : EventTable) (e : String) (h : HandlerId),
        subscribers (onReg tbl e h) e = subscribers tbl e ++ [h])
    ∧ (∀ (tbl : EventTable) (e : String) (h : HandlerId),
        subscribers (onReg (onReg tbl e h) e h) e = subscribers tbl e ++ [h, h])
    ∧ (∀ (tbl : EventTable) (env : HandlerId → HandlerBehavior) (e : String),
        emit (offAllReg tbl e) env e = .ok ([], [])) := by
  refine ⟨?_, ?_, ?_, ?_⟩
  · intro ops env e
    exact emitRun_eq env e _
  · intro tbl e h
    exact subscribers_onReg tbl e h
  · intro tbl e h
    rw [subscribers_onReg, subscribers_onReg, List.append_assoc]
    rfl
  · intro tbl env e
    rw [emit, subscribers_offAllReg]
    rfl

/-- C6: when a handler raises during emit, the exception is caught and
reported, every handler registered after it still runs in that same emit
call (the invocation trace is still the whole subscriber list), and no
exception propagates to emit's caller (dispatch concludes with an ok
value in the caller's exception monad). -/
theorem emit_isolation_contract :
    ∀ (env : HandlerId → HandlerBehavior) (e : String) (pre : List HandlerId)
      (h : HandlerId) (post : List HandlerId) (m : String),
      env h = .raises m →
        emitRun env e (pre ++ h :: post) =
          .ok (pre ++ h :: post, emitReports env e (pre ++ h :: post))
        ∧ ("Error in event handler for " ++ e ++ ": " ++ m) ∈
            emitReports env e (pre ++ h :: post) := by
  intro env e pre h post m hraise
  refine ⟨emitRun_eq env e _, ?_⟩
  rw [emitReports, List.mem_filterMap]
  exact ⟨h, by simp, by rw [hraise]⟩

/-- C6 witness: with handler 0 raising and handler 1 well behaved, emit
over the list of both returns ok, still invokes both in order, and
reports the caught exception. -/
theorem emit_isolation_contract_witness :
    emitRun (fun n => if n = 0 then .raises "boom" else .ok) "evt" ([] ++ 0 :: [1]) =
      .ok ([] ++ 0 :: [1],
           emitReports (fun n => if n = 0 then .raises "boom" else .ok) "evt" ([] ++ 0 :: [1]))
    ∧ ("Error in event handler for " ++ "evt" ++ ": " ++ "boom") ∈
        emitReports (fun n => if n = 0 then .raises "boom" else .ok) "evt" ([] ++ 0 :: [1]) :=
  emit_isolation_contract (fun n => if n = 0 then .raises "boom" else .ok)
    "evt" [] 0 [1] "boom" rfl

/-- C8: encoding a chat-start command and then decoding the resulting wire
frame as the receiving side would yields the chat_request envelope with
the original query, history and preferences: the round trip is the
identity on these fields. -/
theorem chat_request_roundtrip :
    ∀ (q : String) (h : List JValue) (p : List (String × JValue)),
      decode_chat_request (encode_chat_request q h p) = some (q, h, p) := by
  intro q h p
  rfl

/-- C2: the dispatcher acts by the type discriminator.  A question
envelope sets the Active Question Marker to data.question_id and emits
message with the raw envelope then question with data; a result envelope
emits message then result with data; a complete envelope clears the
marker and emits message then complete with no payload; an error envelope
emits message then chat_error with an error object constructed from data;
any other type emits unknown_message with the raw envelope. -/
theorem handle_message_dispatch :
    ∀ (st : WsClient) (msg : JValue),
      (msgType msg = some "question" →
        handle_message st msg =
          ({ st with current_question_id := dataQuestionId msg },
           [⟨"message", .json msg⟩, ⟨"question", .json (msgData msg)⟩]))
      ∧ (msgType msg = some "result" →
        handle_message st msg =
          (st, [⟨"message", .json msg⟩, ⟨"result", .json (msgData msg)⟩]))
      ∧ (msgType msg = some "complete" →
        handle_message st msg =
          ({ st with current_question_id := none },
           [⟨"message", .json msg⟩, ⟨"complete", .unit⟩]))
      ∧ (msgType msg = some "error" →
        handle_message st msg =
          (st, [⟨"message", .json msg⟩, ⟨"chat_error", .errObj (msgData msg)⟩]))
      ∧ (msgType msg ≠ some "question" → msgType msg ≠ some "result" →
         msgType msg ≠ some "complete" → msgType msg ≠ some "error" →
        handle_message st msg = (st, [⟨"unknown_message", .json msg⟩])) := by
  intro st msg
  refine ⟨?_, ?_, ?_, ?_, ?_⟩
  · intro h; unfold handle_message; rw [h]; rfl
  · intro h; unfold handle_message; rw [h]; rfl
  · intro h; unfold handle_message; rw [h]; rfl
  · intro h; unfold handle_message; rw [h]; rfl
  · intro h1 h2 h3 h4
    unfold handle_message
    rcases hm : msgType msg with _ | s
    · rfl
    · rw [hm] at h1 h2 h3 h4
      have hq : s ≠ "question" := fun hs => h1 (by rw [hs])
      have hr : s ≠ "result" := fun hs => h2 (by rw [hs])
      have hc : s ≠ "complete" := fun hs => h3 (by rw [hs])
      have he : s ≠ "error" := fun hs => h4 (by rw [hs])
      simp [hq, hr, hc, he]

/-- C2 witness: dispatch evaluated on one concrete envelope of each kind,
from a state whose Active Question Marker is set to old. -/
theorem handle_message_dispatch_witness :
    handle_message ⟨"u", "k", "wss://x", none, false, some "old", none⟩
        (.jobj [("type", .jstr "question"),
                ("data", .jobj [("question_id", .jstr "q123"), ("text", .jstr "name?")])]) =
      (⟨"u", "k", "wss://x", none, false, some "q123", none⟩,
       [⟨"message", .json (.jobj [("type", .jstr "question"),
                ("data", .jobj [("question_id", .jstr "q123"), ("text", .jstr "name?")])])⟩,
        ⟨"question", .json (.jobj [("question_id", .jstr "q123"), ("text", .jstr "name?")])⟩])
    ∧ handle_message ⟨"u", "k", "wss://x", none, false, some "old", none⟩
        (.jobj [("type", .jstr "result"), ("data", .jstr "ans")]) =
      (⟨"u", "k", "wss://x", none, false, some "old", none⟩,
       [⟨"message", .json (.jobj [("type", .jstr "result"), ("data", .jstr "ans")])⟩,
        ⟨"result", .json (.jstr "ans")⟩])
    ∧ handle_message ⟨"u", "k", "wss://x", none, false, some "old", none⟩
        (.jobj [("type", .jstr "complete")]) =
      (⟨"u", "k", "wss://x", none, false, none, none⟩,
       [⟨"message", .json (.jobj [("type", .jstr "complete")])⟩, ⟨"complete", .unit⟩])
    ∧ handle_message ⟨"u", "k", "wss://x", none, false, some "old", none⟩
        (.jobj [("type", .jstr "error"), ("data", .jstr "bad")]) =
      (⟨"u", "k", "wss://x", none, false, some "old", none⟩,
       [⟨"message", .json (.jobj [("type", .jstr "error"), ("data", .jstr "bad")])⟩,
        ⟨"chat_error", .errObj (.jstr "bad")⟩])
    ∧ handle_message ⟨"u", "k", "wss://x", none, false, some "old", none⟩
        (.jobj [("type", .jstr "weird")]) =
      (⟨"u", "k", "wss://x", none, false, some "old", none⟩,
       [⟨"unknown_message", .json (.jobj [("type", .jstr "weird")])⟩]) := by
  refine ⟨?_, ?_, ?_, ?_, ?_⟩
  · exact ((handle_message_dispatch ⟨"u", "k", "wss://x", none, false, some "old", none⟩
      (.jobj [("type", .jstr "question"),
              ("data", .jobj [("question_id", .jstr "q123"),
                              ("text", .jstr "name?")])])).1 rfl).trans rfl
  · exact ((handle_message_dispatch ⟨"u", "k", "wss://x", none, false, some "old", none⟩
      (.jobj [("type", .jstr "result"), ("data", .jstr "ans")])).2.1 rfl).trans rfl
  · exact ((handle_message_dispatch ⟨"u", "k", "wss://x", none, false, some "old", none⟩
      (.jobj [("type", .jstr "complete")])).2.2.1 rfl).trans rfl
  · exact ((handle_message_dispatch ⟨"u", "k", "wss://x", none, false, some "old", none⟩
      (.jobj [("type", .jstr "error"), ("data", .jstr "bad")])).2.2.2.1 rfl).trans rfl
  · exact ((handle_message_dispatch ⟨"u", "k", "wss://x", none, false, some "old", none⟩
      (.jobj [("type", .jstr "weird")])).2.2.2.2 (by decide) (by decide) (by decide)
      (by decide)).trans rfl

/-- C10: envelopes of type result, error, or any unrecognized type leave
the Active Question Marker unchanged; across all dispatch cases a change
of the marker implies the envelope was a question or a complete, and a
successful sendResponse leaves the marker cleared. -/
theorem question_marker_frame :
    ∀ (st : WsClient) (msg : JValue),
      (msgType msg = some "result" →
        (handle_message st msg).1.current_question_id = st.current_question_id)
      ∧ (msgType msg = some "error" →
        (handle_message st msg).1.current_question_id = st.current_question_id)
      ∧ (msgType msg ≠ some "question" → msgType msg ≠ some "complete" →
        (handle_message st msg).1.current_question_id = st.current_question_id)
      ∧ ((handle_message st msg).1.current_question_id ≠ st.current_question_id →
        msgType msg = some "question" ∨ msgType msg = some "complete")
      ∧ (∀ (answer : String) (st2 : WsClient) (frame : JValue),
          send_response st answer = .ok (st2, frame) →
          st2.current_question_id = none) := by
  intro st msg
  have frameCond : msgType msg ≠ some "question" → msgType msg ≠ some "complete" →
      (handle_message st msg).1.current_question_id = st.current_question_id := by
    intro hq hc
    unfold handle_message
    rcases hm : msgType msg with _ | s
    · rfl
    · rw [hm] at hq hc
      have hq1 : s ≠ "question" := fun hs => hq (by rw [hs])
      have hc1 : s ≠ "complete" := fun hs => hc (by rw [hs])
      by_cases hr : s = "result"
      · subst hr; rfl
      · by_cases he : s = "error"
        · subst he; rfl
        · simp [hq1, hr, hc1, he]
  refine ⟨?_, ?_, frameCond, ?_, ?_⟩
  · intro h
    exact frameCond (by simp [h]) (by simp [h])
  · intro h
    exact frameCond (by simp [h]) (by simp [h])
  · intro hne
    by_contra hcon
    push_neg at hcon
    exact hne (frameCond hcon.1 hcon.2)
  · intro answer st2 frame h
    cases hc : st.is_connected
    · simp [send_response, hc] at h
    · rcases hq : st.current_question_id with _ | q
      · simp [send_response, hc, hq] at h
      · simp [send_response, hc, hq] at h
        rw [← h.1]

/-- C10 witness: from a connected state with active question q123, a
result envelope and an error envelope leave the marker at q123, an
unrecognized envelope leaves it at q123, and a successful sendResponse
leaves it cleared. -/
theorem question_marker_frame_witness :
    (handle_message ⟨"u", "k", "wss://x", some ⟨false⟩, true, some "q123", none⟩
        (.jobj [("type", .jstr "result"), ("data", .jstr "ans")])).1.current_question_id =
      some "q123"
    ∧ (handle_message ⟨"u", "k", "wss://x", some ⟨false⟩, true, some "q123", none⟩
        (.jobj [("type", .jstr "error"), ("data", .jstr "bad")])).1.current_question_id =
      some "q123"
    ∧ (handle_message ⟨"u", "k", "wss://x", some ⟨false⟩, true, some "q123", none⟩
        (.jobj [("type", .jstr "weird")])).1.current_question_id = some "q123"
    ∧ (⟨"u", "k", "wss://x", some ⟨false⟩, true, none, none⟩ : WsClient).current_question_id =
      none := by
  refine ⟨?_, ?_, ?_, ?_⟩
  · exact (question_marker_frame ⟨"u", "k", "wss://x", some ⟨false⟩, true, some "q123", none⟩
      (.jobj [("type", .jstr "result"), ("data", .jstr "ans")])).1 rfl
  · exact (question_marker_frame ⟨"u", "k", "wss://x", some ⟨false⟩, true, some "q123", none⟩
      (.jobj [("type", .jstr "error"), ("data", .jstr "bad")])).2.1 rfl
  · exact (question_marker_frame ⟨"u", "k", "wss://x", some ⟨false⟩, true, some "q123", none⟩
      (.jobj [("type", .jstr "weird")])).2.2.1 (by decide) (by decide)
  · exact (question_marker_frame ⟨"u", "k", "wss://x", some ⟨false⟩, true, some "q123", none⟩
      (.jobj [("type", .jstr "weird")])).2.2.2.2 "yes"
      ⟨"u", "k", "wss://x", some ⟨false⟩, true, none, none⟩
      (responseFrame "q123" "yes") rfl

/-- C3: sendResponse fails with NotConnectedError whenever the client is
not connected, fails with NoActiveQuestionError when connected without an
active question, and when connected with active question q it produces
the response frame carrying q and the answer and clears the Active
Question Marker immediately, so no question is active on the resulting
state. -/
theorem send_response_contract :
    ∀ (st : WsClient) (answer : String),
      (st.is_connected = false → send_response st answer = .error .notConnectedError)
      ∧ (st.is_connected = true → st.current_question_id = none →
          send_response st answer = .error .noActiveQuestionError)
      ∧ (∀ q, st.is_connected = true → st.current_question_id = some q →
          send_response st answer =
            .ok ({ st with current_question_id := none }, responseFrame q answer))
      ∧ (∀ st2 frame, send_response st answer = .ok (st2, frame) →
          has_active_question st2 = false) := by
  intro st answer
  refine ⟨?_, ?_, ?_, ?_⟩
  · intro h; simp [send_response, h]
  · intro h1 h2; simp [send_response, h1, h2]
  · intro q h1 h2; simp [send_response, h1, h2]
  · intro st2 frame h
    cases hc : st.is_connected
    · simp [send_response, hc] at h
    · rcases hq : st.current_question_id with _ | q
      · simp [send_response, hc, hq] at h
      · simp [send_response, hc, hq] at h
        rw [has_active_question, ← h.1]
        rfl

/-- C3 witness: sendResponse evaluated on a disconnected state, on a
connected state with no active question, and on a connected state with
active question q123. -/
theorem send_response_contract_witness :
    send_response ⟨"u", "k", "wss://x", none, false, none, none⟩ "yes" =
      .error .notConnectedError
    ∧ send_response ⟨"u", "k", "wss://x", some ⟨false⟩, true, none, none⟩ "yes" =
      .error .noActiveQuestionError
    ∧ send_response ⟨"u", "k", "wss://x", some ⟨false⟩, true, some "q123", none⟩ "yes" =
      .ok (⟨"u", "k", "wss://x", some ⟨false⟩, true, none, none⟩,
           responseFrame "q123" "yes")
    ∧ has_active_question ⟨"u", "k", "wss://x", some ⟨false⟩, true, none, none⟩ = false := by
  refine ⟨?_, ?_, ?_, ?_⟩
  · exact (send_response_contract ⟨"u", "k", "wss://x", none, false, none, none⟩ "yes").1 rfl
  · exact (send_response_contract ⟨"u", "k", "wss://x", some ⟨false⟩, true, none, none⟩
      "yes").2.1 rfl rfl
  · exact ((send_response_contract ⟨"u", "k", "wss://x", some ⟨false⟩, true, some "q123", none⟩
      "yes").2.2.1 "q123" rfl rfl).trans rfl
  · exact (send_response_contract ⟨"u", "k", "wss://x", some ⟨false⟩, true, some "q123", none⟩
      "yes").2.2.2 ⟨"u", "k", "wss://x", some ⟨false⟩, true, none, none⟩
      (responseFrame "q123" "yes") rfl

/-- C1: when an in-flight connection attempt exists, connect starts no
new transport handshake and returns that attempt's outcome; and when two
connect calls overlap in time under the cooperative schedule, exactly one
transport handshake is started and both calls observe the same result,
the concluded attempt's outcome. -/
theorem connect_single_flight :
    ∀ (st : WsClient) (attempt : ConnectOutcome),
      (∀ pending, st.connection_task = some pending →
        connect st attempt = (st, outcomeResult pending, 0, []))
      ∧ (st.connection_task = none →
        (overlappedConnect st attempt).2.2.2 = 1
        ∧ (overlappedConnect st attempt).2.1 = outcomeResult attempt
        ∧ (overlappedConnect st attempt).2.2.1 = outcomeResult attempt) := by
  intro st attempt
  refine ⟨?_, ?_⟩
  · intro pending h
    unfold connect
    rw [h]
  · intro h
    unfold overlappedConnect connectBegin
    rw [h]
    cases attempt <;> simp [settleAttempt, outcomeResult]

/-- C1 witness: from a fresh disconnected state, a connect while a failing
attempt is pending returns that attempt's outcome with no handshake, and
two overlapping connects around one successful attempt perform one
handshake and both observe the success. -/
theorem connect_single_flight_witness :
    connect ⟨"u", "k", "wss://x", none, false, none, some (.failure "down")⟩ (.success ⟨false⟩) =
      (⟨"u", "k", "wss://x", none, false, none, some (.failure "down")⟩,
       .error "down", 0, [])
    ∧ (overlappedConnect ⟨"u", "k", "wss://x", none, false, none, none⟩
        (.success ⟨false⟩)).2.2.2 = 1
    ∧ (overlappedConnect ⟨"u", "k", "wss://x", none, false, none, none⟩
        (.success ⟨false⟩)).2.1 = .ok ()
    ∧ (overlappedConnect ⟨"u", "k", "wss://x", none, false, none, none⟩
        (.success ⟨false⟩)).2.2.1 = .ok () := by
  have h2 := (connect_single_flight ⟨"u", "k", "wss://x", none, false, none, none⟩
    (.success ⟨false⟩)).2 rfl
  exact ⟨(connect_single_flight ⟨"u", "k", "wss://x", none, false, none,
            some (.failure "down")⟩ (.success ⟨false⟩)).1 (.failure "down") rfl,
         h2.1, h2.2.1.trans rfl, h2.2.2.trans rfl⟩

theorem waitAux_exc (poll : Nat → PollAnswer) (k fuel s : Nat) (m : String)
    (h : poll k = .exc m) :
    waitAux poll k (fuel + 1) s = ⟨.exited 1, k + 1, s⟩ := by
  rw [waitAux, h]

theorem waitAux_completed (poll : Nat → PollAnswer) (k fuel s : Nat) (r : JValue)
    (h : poll k = .data ⟨"completed", r⟩) :
    waitAux poll k (fuel + 1) s = ⟨.returned r, k + 1, s⟩ := by
  rw [waitAux, h]
  simp

theorem waitAux_unexpected (poll : Nat → PollAnswer) (k fuel s : Nat) (d : PollData)
    (h : poll k = .data d) (h1 : d.status ≠ "completed") (h2 : d.status ≠ "running") :
    waitAux poll k (fuel + 1) s = ⟨.exited 1, k + 1, s⟩ := by
  rw [waitAux, h]
  simp [h1, h2]

theorem waitAux_running (poll : Nat → PollAnswer) (k fuel s : Nat) (r : JValue)
    (h : poll k = .data ⟨"running", r⟩) :
    waitAux poll k (fuel + 1) s =
      if k + 1 < max_attempts then waitAux poll (k + 1) fuel (s + 1)
      else waitAux poll (k + 1) fuel s := by
  rw [waitAux, h]
  simp

theorem waitAux_polls_le (poll : Nat → PollAnswer) :
    ∀ (fuel k s : Nat), (waitAux poll k fuel s).polls ≤ k + fuel := by
  intro fuel
  induction fuel with
  | zero => intro k s; simp [waitAux]
  | succ fuel ih =>
      intro k s
      cases hp : poll k with
      | exc m =>
          rw [waitAux_exc poll k fuel s m hp]
          show k + 1 ≤ k + (fuel + 1)
          omega
      | data d =>
          obtain ⟨ds, dr⟩ := d
          by_cases hcompl : ds = "completed"
          · rw [waitAux_completed poll k fuel s dr (by rw [hp, hcompl])]
            show k + 1 ≤ k + (fuel + 1)
            omega
          · by_cases hrun : ds = "running"
            · rw [waitAux_running poll k fuel s dr (by rw [hp, hrun])]
              by_cases hlt : k + 1 < max_attempts
              · rw [if_pos hlt]
                calc (waitAux poll (k + 1) fuel (s + 1)).polls
                      ≤ (k + 1) + fuel := ih (k + 1) (s + 1)
                  _ = k + (fuel + 1) := by omega
              · rw [if_neg hlt]
                calc (waitAux poll (k + 1) fuel s).polls
                      ≤ (k + 1) + fuel := ih (k + 1) s
                  _ = k + (fuel + 1) := by omega
            · rw [waitAux_unexpected poll k fuel s ⟨ds, dr⟩ hp hcompl hrun]
              show k + 1 ≤ k + (fuel + 1)
              omega

theorem waitAux_running_prefix (poll : Nat → PollAnswer) :
    ∀ k, k < max_attempts →
      (∀ j, j < k → ∃ r, poll j = .data ⟨"running", r⟩) →
      waitAux poll 0 max_attempts 0 = waitAux poll k (max_attempts - k) k := by
  intro k
  induction k with
  | zero => intro _ _; rfl
  | succ k ih =>
      intro hk hrun
      have hklt : k < max_attempts := by omega
      rw [ih hklt (fun j hj => hrun j (by omega))]
      obtain ⟨r, hr⟩ := hrun k (by omega)
      rw [show max_attempts - k = (max_attempts - (k + 1)) + 1 from by omega,
          waitAux_running poll k (max_attempts - (k + 1)) k r hr,
          if_pos hk]

/-- C9: wait_for_chat polls up to the fixed ceiling of 30 attempts and
sleeps only between attempts: whenever the first k polls report running
and poll k is decisive, the run has made k+1 polls and slept k times.  A
poll with status completed makes it return that poll's result payload, in
particular with zero sleeps when the first poll is already completed; a
poll with status failed or any other unexpected status, or a request
exception, terminates the process instead of returning; and when every
available attempt reports running it terminates the process after
exactly 30 polls and 29 sleeps. -/
theorem wait_for_chat_contract :
    ∀ poll : Nat → PollAnswer,
      (wait_for_chat poll).polls ≤ max_attempts
      ∧ (∀ (k : Nat) (r : JValue), k < max_attempts →
          (∀ j, j < k → ∃ x, poll j = .data ⟨"running", x⟩) →
          poll k = .data ⟨"completed", r⟩ →
          wait_for_chat poll = ⟨.returned r, k + 1, k⟩)
      ∧ (∀ (k : Nat) (d : PollData), k < max_attempts →
          (∀ j, j < k → ∃ x, poll j = .data ⟨"running", x⟩) →
          poll k = .data d → d.status ≠ "completed" → d.status ≠ "running" →
          wait_for_chat poll = ⟨.exited 1, k + 1, k⟩)
      ∧ (∀ (k : Nat) (m : String), k < max_attempts →
          (∀ j, j < k → ∃ x, poll j = .data ⟨"running", x⟩) →
          poll k = .exc m →
          wait_for_chat poll = ⟨.exited 1, k + 1, k⟩)
      ∧ ((∀ k, k < max_attempts → ∃ x, poll k = .data ⟨"running", x⟩) →
          wait_for_chat poll = ⟨.exited 1, max_attempts, 29⟩) := by
  intro poll
  have h29 : (29 : Nat) < max_attempts := by decide
  refine ⟨?_, ?_, ?_, ?_, ?_⟩
  · have hb := waitAux_polls_le poll max_attempts 0 0
    simpa [wait_for_chat] using hb
  · intro k r hk hrun h
    rw [wait_for_chat, waitAux_running_prefix poll k hk hrun,
        show max_attempts - k = (max_attempts - (k + 1)) + 1 from by omega,
        waitAux_completed poll k (max_attempts - (k + 1)) k r h]
  · intro k d hk hrun h h1 h2
    rw [wait_for_chat, waitAux_running_prefix poll k hk hrun,
        show max_attempts - k = (max_attempts - (k + 1)) + 1 from by omega,
        waitAux_unexpected poll k (max_attempts - (k + 1)) k d h h1 h2]
  · intro k m hk hrun h
    rw [wait_for_chat, waitAux_running_prefix poll k hk hrun,
        show max_attempts - k = (max_attempts - (k + 1)) + 1 from by omega,
        waitAux_exc poll k (max_attempts - (k + 1)) k m h]
  · intro h
    obtain ⟨r, hr⟩ := h 29 h29
    rw [wait_for_chat,
        waitAux_running_prefix poll 29 h29 (fun j hj => h j (Nat.lt_trans hj h29)),
        show max_attempts - 29 = 0 + 1 from rfl,
        waitAux_running poll 29 0 29 r hr,
        if_neg (by decide), waitAux]
    rfl

/-- C9 witness: a task completed on the first poll returns its result
after one poll and zero sleeps; a task running once and completed on the
second poll returns after two polls and one sleep; a task whose first
poll raises ends the process after one poll; a task that always reports
running ends the process after 30 polls and 29 sleeps. -/
theorem wait_for_chat_contract_witness :
    wait_for_chat (fun _ => .data ⟨"completed", .jstr "done"⟩) =
      ⟨.returned (.jstr "done"), 1, 0⟩
    ∧ wait_for_chat
        (fun n => if n = 0 then .data ⟨"running", .jnull⟩
                  else .data ⟨"completed", .jstr "later"⟩) =
      ⟨.returned (.jstr "later"), 2, 1⟩
    ∧ wait_for_chat (fun _ => .exc "boom") = ⟨.exited 1, 1, 0⟩
    ∧ wait_for_chat (fun _ => .data ⟨"running", .jnull⟩) =
      ⟨.exited 1, max_attempts, 29⟩ := by
  refine ⟨?_, ?_, ?_, ?_⟩
  · exact (wait_for_chat_contract (fun _ => .data ⟨"completed", .jstr "done"⟩)).2.1
      0 (.jstr "done") (by decide) (fun j hj => absurd hj (Nat.not_lt_zero j)) rfl
  · exact (wait_for_chat_contract (fun n => if n = 0 then .data ⟨"running", .jnull⟩
        else .data ⟨"completed", .jstr "later"⟩)).2.1 1 (.jstr "later") (by decide)
      (fun j hj => ⟨.jnull, by
        have hj0 : j = 0 := Nat.lt_one_iff.mp hj
        rw [hj0]
        rfl⟩) rfl
  · exact (wait_for_chat_contract (fun _ => .exc "boom")).2.2.2.1 0 "boom" (by decide)
      (fun j hj => absurd hj (Nat.not_lt_zero j)) rfl
  · exact (wait_for_chat_contract (fun _ => .data ⟨"running", .jnull⟩)).2.2.2.2
      (fun _ _ => ⟨.jnull, rfl⟩)
